import Mathlib

/-!
Verification of the AdSense eligibility checker (Express server + crawler).

The development shallowly embeds the analysis pipeline of `crawler.js`
(`analyzeWebsite` and its nine criterion scorers) and the SSE handler of
`server.js`.  Machine numbers are modelled as exact rationals; the JavaScript
special values produced by division by zero are modelled explicitly by `JSVal`.
-/

namespace AdSense

/-- Model of a JavaScript number as it occurs in this pipeline: an exact
rational, or one of the IEEE special values that JavaScript division and
`Math.round` can produce. -/
inductive JSVal where
  | num (q : ℚ)
  | posInf
  | negInf
  | nan
deriving DecidableEq, Repr

/-- JavaScript division `a / b` on (finite) numbers: division by zero yields
`Infinity`, `-Infinity` or `NaN` according to the sign of the numerator. -/
def jsDiv (a b : ℚ) : JSVal :=
  if b = 0 then
    if a = 0 then .nan else if 0 < a then .posInf else .negInf
  else .num (a / b)

/-- JavaScript comparison `v >= c` for a possibly special value `v` against a
finite constant: `NaN` compares false, `Infinity` true, `-Infinity` false. -/
def jsGe (v : JSVal) (c : ℚ) : Bool :=
  match v with
  | .num q => decide (c ≤ q)
  | .posInf => true
  | .negInf => false
  | .nan => false

/-- JavaScript `Math.round` on a finite number: round half toward +∞. -/
def jsRoundQ (q : ℚ) : ℤ := ⌊q + 1/2⌋

/-- JavaScript `Math.round` lifted to `JSVal` (special values pass through). -/
def jsRoundVal (v : JSVal) : JSVal :=
  match v with
  | .num q => .num (jsRoundQ q)
  | v => v

/-- Rendering of a `JSVal` with the formatting JavaScript template literals
use for the values this pipeline produces (integers or special values). -/
def jsNumToString (v : JSVal) : String :=
  match v with
  | .num q => if q.den = 1 then toString q.num else toString q
  | .posInf => "Infinity"
  | .negInf => "-Infinity"
  | .nan => "NaN"

/-- JavaScript truthiness of a string: non-empty. -/
def jsTruthyStr (s : String) : Bool := !(s == "")

/-- JavaScript truthiness of `elem.attr(name)`: the attribute is present and
its value is a non-empty string (`undefined` and `""` are falsy). -/
def jsTruthyOpt (o : Option String) : Bool :=
  match o with
  | none => false
  | some s => !(s == "")

/-- Does `needle` occur at the head of `hay`? (helper for substring search) -/
def charsLead : List Char → List Char → Bool
  | [], _ => true
  | _ :: _, [] => false
  | a :: as, b :: bs => a == b && charsLead as bs

/-- Does `needle` occur anywhere in `hay`? (helper for `String.includes`) -/
def charsHave (needle : List Char) : List Char → Bool
  | [] => charsLead needle []
  | c :: t => charsLead needle (c :: t) || charsHave needle t

/-- JavaScript `s.includes(sub)`: substring occurrence. -/
def jsIncludes (s sub : String) : Bool := charsHave sub.data s.data

/-- JavaScript `s.startsWith(p)`. -/
def jsStartsWith (s p : String) : Bool := charsLead p.data s.data

/-- JavaScript `s.trim()`: strip whitespace from both ends. -/
def jsTrim (s : String) : String :=
  String.mk (((s.data.dropWhile Char.isWhitespace).reverse.dropWhile Char.isWhitespace).reverse)

/-- JavaScript `s.toLowerCase()` (ASCII-adequate model). -/
def jsToLower (s : String) : String := String.mk (s.data.map Char.toLower)

/-- Worker for JavaScript `s.split(/\s+/)`: splits on maximal whitespace
runs; a leading or trailing run contributes an empty piece, and the empty
string splits into the single piece `""`. `inWs` records whether the
previous character belonged to a whitespace run whose piece was already
emitted; `acc` is the current piece, reversed. -/
def splitWsGo (inWs : Bool) (acc : List Char) : List Char → List (List Char)
  | [] => [acc.reverse]
  | c :: t =>
    if c.isWhitespace then
      if inWs then splitWsGo true acc t
      else acc.reverse :: splitWsGo true [] t
    else splitWsGo false (c :: acc) t

/-- JavaScript `s.split(/\s+/)` as used for the word count. -/
def splitWs (s : String) : List (List Char) := splitWsGo false [] s.data

/-- Display status of a checked item. -/
inductive Status where
  | passed
  | warning
  | failed
deriving DecidableEq, Repr

/-- A `{value, status}` pair as emitted in the report for every item. -/
structure CriterionResult (α : Type) where
  value : α
  status : Status
deriving DecidableEq, Repr

/-- An anchor element as seen by the extractor: its `href` attribute (absent
when the attribute is missing) and its visible text. -/
structure Link where
  href : Option String
  text : String
deriving DecidableEq, Repr

/-- An `img` element: its `alt` and `title` attributes. -/
structure Img where
  alt : Option String
  title : Option String
deriving DecidableEq, Repr

/-- Static facts of the fetched markup, as cheerio exposes them to
`analyzeWebsite`: tag texts/counts, elements, and meta-tag presence. -/
structure Page where
  title : String
  metaDescription : Option String
  h1Count : ℕ
  h2Count : ℕ
  h3Count : ℕ
  imgs : List Img
  links : List Link
  paragraphTexts : List String
  hasViewport : Bool
  hasRobots : Bool
  hasKeywords : Bool
  hasAuthor : Bool
  hasSocialMeta : Bool
  scriptCount : ℕ
  stylesheetCount : ℕ
  formsHaveLabel : List Bool
deriving DecidableEq, Repr

/-- A successful axios response: parsed markup facts plus the three security
response headers the pipeline inspects. -/
structure FetchResp where
  page : Page
  hstsHeader : Bool
  xssHeader : Bool
  cspHeader : Bool
deriving DecidableEq, Repr

/-- A successful whois lookup: the registration date in epoch milliseconds
when the response carries a parseable `creationDate` field, `none` when the
field is missing or unparseable (`new Date(undefined)` is an invalid date). -/
structure WhoisData where
  creationDate : Option ℤ
deriving DecidableEq, Repr

/-- The external world of one analysis: the HTTP fetch, the whois lookup
(both keyed by the string argument the pipeline passes) and the clock. -/
structure Env where
  fetch : String → Except String FetchResp
  whois : String → Except String WhoisData
  now : ℤ

/-! ## Extraction (the inline signal computations of `analyzeWebsite`) -/

/-- `url.startsWith('http') ? url : 'http://' + url`. -/
def formatUrl (url : String) : String :=
  if jsStartsWith url "http" then url else "http://" ++ url

/-- The predicate of the `internalLinks` filter: the href attribute is truthy
and starts with `/` or contains the formatted URL as a substring. -/
def isInternalLink (formattedUrl : String) (l : Link) : Bool :=
  match l.href with
  | none => false
  | some href => !(href == "") && (jsStartsWith href "/" || jsIncludes href formattedUrl)

/-- `links.filter(internal).length`. -/
def internalLinksCount (formattedUrl : String) (links : List Link) : ℕ :=
  (links.filter (isInternalLink formattedUrl)).length

/-- `links.length - internalLinks`. -/
def externalLinksCount (formattedUrl : String) (links : List Link) : ℕ :=
  links.length - internalLinksCount formattedUrl links

/-- The predicate of the required-pages filters: truthy href whose lowercase
form contains the keyword. -/
def linkHasKeyword (kw : String) (l : Link) : Bool :=
  match l.href with
  | none => false
  | some href => !(href == "") && jsIncludes (jsToLower href) kw

/-- `links.filter(kw).length > 0` for the four required-page checks. -/
def hasKeywordLink (kw : String) (links : List Link) : Bool :=
  (links.filter (linkHasKeyword kw)).length > 0

/-- `formattedUrl.startsWith('https')`. -/
def isHttps (formattedUrl : String) : Bool := jsStartsWith formattedUrl "https"

/-- `paragraphs.text()`: cheerio concatenates the text of all paragraph
elements with no separator. -/
def paragraphsText (page : Page) : String := String.join page.paragraphTexts

/-- `paragraphs.text().split(/\s+/).length`. -/
def wordCountOf (page : Page) : ℕ := (splitWs (paragraphsText page)).length

/-- `wordCount / paragraphs.length` — an unguarded JavaScript division, so a
page with zero paragraphs yields `Infinity` (the word count is never 0). -/
def avgParagraphLengthOf (page : Page) : JSVal :=
  jsDiv (wordCountOf page) (page.paragraphTexts.length)

/-- `images.filter((i, el) => $(el).attr('alt')).length` (line 171). -/
def imagesWithAlt (imgs : List Img) : ℕ :=
  (imgs.filter (fun i => jsTruthyOpt i.alt)).length

/-- `images.filter((i, el) => $(el).attr('title')).length`. -/
def imagesWithTitle (imgs : List Img) : ℕ :=
  (imgs.filter (fun i => jsTruthyOpt i.title)).length

/-- The string argument the pipeline passes to `whoisLookup` (line 155): the
formatted URL itself. -/
def whoisArgOf (url : String) : String := formatUrl url

/-- Modelled from the spec: the "target's host" of a normalized URL — the
component after the scheme and before any path, port or query. The spec's
domain-age contract says the lookup is for this host; the source has no such
extraction, it passes the whole formatted URL to the lookup. -/
def urlHost (u : String) : String :=
  let rest := if jsStartsWith u "https://" then u.data.drop 8
    else if jsStartsWith u "http://" then u.data.drop 7 else u.data
  String.mk (rest.takeWhile (fun c => c != '/' && c != ':' && c != '?'))

/-- The domain-age computation (lines 153–161): 0 when the lookup throws;
otherwise `Math.round((now - creationDate) / (1000*60*60*24*30))`, which is
`NaN` when the whois data has no parseable creation date. -/
def domainAgeOf (env : Env) (formattedUrl : String) : JSVal :=
  match env.whois formattedUrl with
  | .error _ => .num 0
  | .ok w =>
    match w.creationDate with
    | none => .nan
    | some c => .num (jsRoundQ ((env.now - c : ℚ) / (1000 * 60 * 60 * 24 * 30)))

/-! ## The nine criterion scorers -/

def calculateSEOScore (title : String) (metaDescription : Option String)
    (h1Count h2Count h3Count internalLinks externalLinks : ℕ) : ℤ :=
  let score : ℤ := 0
  let score := if jsTruthyStr title then score + 20 else score
  let score := if jsTruthyOpt metaDescription then score + 20 else score
  let score := if h1Count > 0 then score + 15 else score
  let score := if h2Count > 0 then score + 10 else score
  let score := if h3Count > 0 then score + 5 else score
  let score := if internalLinks > 0 then score + 15 else score
  let score := if externalLinks > 0 then score + 15 else score
  score

def calculateRequiredPagesScore (hasPrivacyPolicy hasContactPage hasAboutPage hasTermsPage : Bool) : ℤ :=
  let score : ℤ := 0
  let score := if hasPrivacyPolicy then score + 40 else score
  let score := if hasContactPage then score + 20 else score
  let score := if hasAboutPage then score + 20 else score
  let score := if hasTermsPage then score + 20 else score
  score

def calculateSecurityScore (isHttps hasHsts hasXssProtection hasCsp : Bool) : ℤ :=
  let score : ℤ := 0
  let score := if isHttps then score + 40 else score
  let score := if hasHsts then score + 20 else score
  let score := if hasXssProtection then score + 20 else score
  let score := if hasCsp then score + 20 else score
  score

def calculateDomainAgeScore (age : JSVal) : ℤ :=
  if jsGe age 12 then 100
  else if jsGe age 6 then 80
  else if jsGe age 3 then 60
  else if jsGe age 1 then 40
  else 20

def calculateContentScore (wordCount : ℕ) (avgParagraphLength : JSVal) : ℤ :=
  let score : ℤ := 0
  let score := if wordCount ≥ 1000 then score + 50
    else if wordCount ≥ 500 then score + 30
    else if wordCount ≥ 300 then score + 20
    else score + 10
  let score := if jsGe avgParagraphLength 100 then score + 50
    else if jsGe avgParagraphLength 50 then score + 30
    else if jsGe avgParagraphLength 30 then score + 20
    else score + 10
  score

/-- The word-count tier of `calculateContentScore` in isolation. -/
def wordCountTier (wordCount : ℕ) : ℤ :=
  if wordCount ≥ 1000 then 50
  else if wordCount ≥ 500 then 30
  else if wordCount ≥ 300 then 20
  else 10

/-- The paragraph-length tier of `calculateContentScore` in isolation. -/
def avgParagraphTier (avgParagraphLength : JSVal) : ℤ :=
  if jsGe avgParagraphLength 100 then 50
  else if jsGe avgParagraphLength 50 then 30
  else if jsGe avgParagraphLength 30 then 20
  else 10

def calculateImageScore (total withAlt withTitle : ℕ) : ℤ :=
  let score : ℤ := 0
  let score := if total > 0 then score + 40 else score
  let score := if withAlt > 0 then score + 30 else score
  let score := if withTitle > 0 then score + 30 else score
  score

def calculateMetaScore (hasViewport hasRobots hasKeywords hasAuthor hasSocialMeta : Bool) : ℤ :=
  let score : ℤ := 0
  let score := if hasViewport then score + 30 else score
  let score := if hasRobots then score + 20 else score
  let score := if hasKeywords then score + 15 else score
  let score := if hasAuthor then score + 15 else score
  let score := if hasSocialMeta then score + 20 else score
  score

/-- The performance sub-report: three `{value, status}` items. -/
structure Perf where
  loadTime : CriterionResult String
  scripts : CriterionResult String
  stylesheets : CriterionResult String
deriving DecidableEq, Repr

/-- `analyzePerformance($)`: classifies script count, stylesheet count
and a crude estimated load time. -/
def analyzePerformance (page : Page) : Perf :=
  let scriptCount := page.scriptCount
  let stylesheetCount := page.stylesheetCount
  let totalResources := scriptCount + stylesheetCount
  let estimatedLoadTime := jsRoundQ ((totalResources * 100 : ℚ) / 1000)
  { scripts := { value := toString scriptCount ++ " scripts found",
                 status := if scriptCount > 10 then .warning else .passed }
    stylesheets := { value := toString stylesheetCount ++ " stylesheets found",
                     status := if stylesheetCount > 5 then .warning else .passed }
    loadTime := { value := toString estimatedLoadTime ++ " seconds (estimated)",
                  status := if estimatedLoadTime > 3 then .warning else .passed } }

/-- The accessibility sub-report: three `{value, status}` items. -/
structure Acc where
  images : CriterionResult String
  links : CriterionResult String
  forms : CriterionResult String
deriving DecidableEq, Repr

/-- The alt-text filter inside `analyzeAccessibility` (line 395), written
there a second time with the same truthiness test as line 171. -/
def accImagesWithAlt (imgs : List Img) : ℕ :=
  (imgs.filter (fun i => jsTruthyOpt i.alt)).length

/-- The descriptive-text filter: `$(link).text().trim()` truthy. -/
def linksWithText (links : List Link) : ℕ :=
  (links.filter (fun l => jsTruthyStr (jsTrim l.text))).length

/-- Percentage classification used by all three accessibility items. -/
def accStatus (pct : ℤ) : Status :=
  if pct ≥ 90 then .passed else if pct ≥ 50 then .warning else .failed

/-- `analyzeAccessibility($)`: alt-text, link-text and form-label coverage
percentages, each guarded to 0 when the denominator is zero. -/
def analyzeAccessibility (page : Page) : Acc :=
  let imgsAlt := accImagesWithAlt page.imgs
  let totalImages := page.imgs.length
  let altTextPercentage : ℤ :=
    if totalImages > 0 then jsRoundQ ((imgsAlt : ℚ) / totalImages * 100) else 0
  let withText := linksWithText page.links
  let totalLinks := page.links.length
  let linkTextPercentage : ℤ :=
    if totalLinks > 0 then jsRoundQ ((withText : ℚ) / totalLinks * 100) else 0
  let formsWithLabels := (page.formsHaveLabel.filter (fun b => b)).length
  let totalForms := page.formsHaveLabel.length
  let formLabelPercentage : ℤ :=
    if totalForms > 0 then jsRoundQ ((formsWithLabels : ℚ) / totalForms * 100) else 0
  { images := { value := toString altTextPercentage ++ "% of images have alt text (" ++
                  toString imgsAlt ++ "/" ++ toString totalImages ++ ")",
                status := accStatus altTextPercentage }
    links := { value := toString linkTextPercentage ++ "% of links have descriptive text (" ++
                 toString withText ++ "/" ++ toString totalLinks ++ ")",
               status := accStatus linkTextPercentage }
    forms := { value := toString formLabelPercentage ++ "% of forms have labels (" ++
                 toString formsWithLabels ++ "/" ++ toString totalForms ++ ")",
               status := accStatus formLabelPercentage } }

def calculatePerformanceScore (performance : Perf) : ℤ :=
  let score : ℤ := 0
  let score := if performance.scripts.status = .passed then score + 30
    else if performance.scripts.status = .warning then score + 15 else score
  let score := if performance.stylesheets.status = .passed then score + 30
    else if performance.stylesheets.status = .warning then score + 15 else score
  let score := if performance.loadTime.status = .passed then score + 40
    else if performance.loadTime.status = .warning then score + 20 else score
  score

def calculateAccessibilityScore (accessibility : Acc) : ℤ :=
  let score : ℤ := 0
  let score := if accessibility.images.status = .passed then score + 40
    else if accessibility.images.status = .warning then score + 20 else score
  let score := if accessibility.links.status = .passed then score + 30
    else if accessibility.links.status = .warning then score + 15 else score
  let score := if accessibility.forms.status = .passed then score + 30
    else if accessibility.forms.status = .warning then score + 15 else score
  score

/-! ## Aggregation and report assembly -/

/-- The nine sub-scores, as collected in the `scores` object. -/
structure Scores where
  seo : ℤ
  requiredPages : ℤ
  security : ℤ
  domainAge : ℤ
  content : ℤ
  images : ℤ
  meta : ℤ
  performance : ℤ
  accessibility : ℤ
deriving DecidableEq, Repr

/-- The `scores` object of `analyzeWebsite` (lines 206–216), computed from
the fetched response, the formatted URL and the resolved domain age. -/
def scoresOf (resp : FetchResp) (formattedUrl : String) (age : JSVal) : Scores :=
  let page := resp.page
  { seo := calculateSEOScore page.title page.metaDescription page.h1Count
      page.h2Count page.h3Count (internalLinksCount formattedUrl page.links)
      (externalLinksCount formattedUrl page.links)
    requiredPages := calculateRequiredPagesScore
      (hasKeywordLink "privacy" page.links) (hasKeywordLink "contact" page.links)
      (hasKeywordLink "about" page.links) (hasKeywordLink "terms" page.links)
    security := calculateSecurityScore (isHttps formattedUrl)
      resp.hstsHeader resp.xssHeader resp.cspHeader
    domainAge := calculateDomainAgeScore age
    content := calculateContentScore (wordCountOf page) (avgParagraphLengthOf page)
    images := calculateImageScore page.imgs.length
      (imagesWithAlt page.imgs) (imagesWithTitle page.imgs)
    meta := calculateMetaScore page.hasViewport page.hasRobots page.hasKeywords
      page.hasAuthor page.hasSocialMeta
    performance := calculatePerformanceScore (analyzePerformance page)
    accessibility := calculateAccessibilityScore (analyzeAccessibility page) }

/-- The weighted sum of lines 194–220, with the weight table of the source
(0.25, 0.15, 0.15, 0.1, 0.15, 0.1, 0.1, 0.1, 0.1). -/
def weightedTotal (s : Scores) : ℚ :=
  (s.seo : ℚ) * 0.25 + (s.requiredPages : ℚ) * 0.15 + (s.security : ℚ) * 0.15 +
  (s.domainAge : ℚ) * 0.1 + (s.content : ℚ) * 0.15 + (s.images : ℚ) * 0.1 +
  (s.meta : ℚ) * 0.1 + (s.performance : ℚ) * 0.1 + (s.accessibility : ℚ) * 0.1

/-- `Math.round(finalScore)`. -/
def finalScoreOf (s : Scores) : ℤ := jsRoundQ (weightedTotal s)

/-- The `details.seo` group of the report. -/
structure SeoDetails where
  title : CriterionResult String
  metaDescription : CriterionResult (Option String)
  h1Count : CriterionResult ℕ
  h2Count : CriterionResult ℕ
  h3Count : CriterionResult ℕ
  internalLinks : CriterionResult ℕ
  externalLinks : CriterionResult ℕ
deriving DecidableEq, Repr

structure RequiredPagesDetails where
  privacyPolicy : CriterionResult Bool
  contactPage : CriterionResult Bool
  aboutPage : CriterionResult Bool
  termsPage : CriterionResult Bool
deriving DecidableEq, Repr

structure SecurityDetails where
  https : CriterionResult Bool
  hsts : CriterionResult Bool
  xssProtection : CriterionResult Bool
  csp : CriterionResult Bool
deriving DecidableEq, Repr

structure DomainDetails where
  age : CriterionResult String
deriving DecidableEq, Repr

structure ContentDetails where
  wordCount : CriterionResult ℕ
  avgParagraphLength : CriterionResult JSVal
deriving DecidableEq, Repr

structure ImagesDetails where
  total : CriterionResult ℕ
  withAlt : CriterionResult ℕ
  withTitle : CriterionResult ℕ
deriving DecidableEq, Repr

structure MetaDetails where
  viewport : CriterionResult Bool
  robots : CriterionResult Bool
  keywords : CriterionResult Bool
  author : CriterionResult Bool
  socialMeta : CriterionResult Bool
deriving DecidableEq, Repr

structure Details where
  seo : SeoDetails
  requiredPages : RequiredPagesDetails
  security : SecurityDetails
  domain : DomainDetails
  content : ContentDetails
  images : ImagesDetails
  meta : MetaDetails
  performance : Perf
  accessibility : Acc
deriving DecidableEq, Repr

/-- The final report: overall score plus the full details tree. -/
structure Report where
  score : ℤ
  details : Details
deriving DecidableEq, Repr

/-- The report literal returned by `analyzeWebsite` (lines 225–271). -/
def buildReport (resp : FetchResp) (formattedUrl : String) (age : JSVal) : Report :=
  let page := resp.page
  let internalLinks := internalLinksCount formattedUrl page.links
  let externalLinks := externalLinksCount formattedUrl page.links
  let hasPrivacyPolicy := hasKeywordLink "privacy" page.links
  let hasContactPage := hasKeywordLink "contact" page.links
  let hasAboutPage := hasKeywordLink "about" page.links
  let hasTermsPage := hasKeywordLink "terms" page.links
  let https := isHttps formattedUrl
  let wordCount := wordCountOf page
  let avgParagraphLength := avgParagraphLengthOf page
  let withAlt := imagesWithAlt page.imgs
  let withTitle := imagesWithTitle page.imgs
  { score := finalScoreOf (scoresOf resp formattedUrl age)
    details :=
    { seo :=
      { title := { value := page.title,
                   status := if jsTruthyStr page.title then .passed else .failed }
        metaDescription := { value := page.metaDescription,
                             status := if jsTruthyOpt page.metaDescription then .passed else .failed }
        h1Count := { value := page.h1Count,
                     status := if page.h1Count > 0 then .passed else .failed }
        h2Count := { value := page.h2Count,
                     status := if page.h2Count > 0 then .passed else .warning }
        h3Count := { value := page.h3Count,
                     status := if page.h3Count > 0 then .passed else .warning }
        internalLinks := { value := internalLinks,
                           status := if internalLinks > 0 then .passed else .warning }
        externalLinks := { value := externalLinks,
                           status := if externalLinks > 0 then .passed else .warning } }
      requiredPages :=
      { privacyPolicy := { value := hasPrivacyPolicy,
                           status := if hasPrivacyPolicy then .passed else .failed }
        contactPage := { value := hasContactPage,
                         status := if hasContactPage then .passed else .failed }
        aboutPage := { value := hasAboutPage,
                       status := if hasAboutPage then .passed else .failed }
        termsPage := { value := hasTermsPage,
                       status := if hasTermsPage then .passed else .warning } }
      security :=
      { https := { value := https, status := if https then .passed else .failed }
        hsts := { value := resp.hstsHeader,
                  status := if resp.hstsHeader then .passed else .warning }
        xssProtection := { value := resp.xssHeader,
                           status := if resp.xssHeader then .passed else .warning }
        csp := { value := resp.cspHeader,
                 status := if resp.cspHeader then .passed else .warning } }
      domain :=
      { age := { value := jsNumToString age ++ " months",
                 status := if jsGe age 6 then .passed else .failed } }
      content :=
      { wordCount := { value := wordCount,
                       status := if wordCount ≥ 500 then .passed else .failed }
        avgParagraphLength := { value := jsRoundVal avgParagraphLength,
                                status := if jsGe avgParagraphLength 50 then .passed else .warning } }
      images :=
      { total := { value := page.imgs.length,
                   status := if page.imgs.length > 0 then .passed else .warning }
        withAlt := { value := withAlt,
                     status := if withAlt > 0 then .passed else .warning }
        withTitle := { value := withTitle,
                       status := if withTitle > 0 then .passed else .warning } }
      meta :=
      { viewport := { value := page.hasViewport,
                      status := if page.hasViewport then .passed else .failed }
        robots := { value := page.hasRobots,
                    status := if page.hasRobots then .passed else .warning }
        keywords := { value := page.hasKeywords,
                      status := if page.hasKeywords then .passed else .warning }
        author := { value := page.hasAuthor,
                    status := if page.hasAuthor then .passed else .warning }
        socialMeta := { value := page.hasSocialMeta,
                        status := if page.hasSocialMeta then .passed else .warning } }
      performance := analyzePerformance page
      accessibility := analyzeAccessibility page } }

/-! ## The pipeline and the SSE stream -/

/-- An event of the server-sent event stream. -/
inductive Ev where
  | progress (progress : ℤ) (step : ℤ)
  | complete (result : Report)
  | error (message : String)
deriving DecidableEq, Repr

/-- The progress events `updateProgress`/`onProgress` emit after the fetch
succeeds, in source order: steps 2–10, with steps 8 and 9 each reported a
second (and for 8 a third) time. -/
def successEvents : List Ev :=
  [.progress 20 2, .progress 30 3, .progress 40 4, .progress 50 5,
   .progress 60 6, .progress 70 7, .progress 80 8, .progress 80 8,
   .progress 80 8, .progress 90 9, .progress 90 9,
   .progress 100 10, .progress 100 10]

/-- The notifications issued before and during the fetch: `updateProgress(0)`
and `updateProgress(1)`. -/
def preEvents : List Ev := [.progress 0 0, .progress 10 1]

/-- `analyzeWebsite(url, onProgress)`: the list of progress notifications it
issues and either the report or the thrown error message. The fetch is the
only fallible step (the whois lookup is absorbed by `domainAgeOf`); a fetch
failure propagates out wrapped as `Analysis failed: ...`. -/
def analyzeWebsite (env : Env) (url : String) : List Ev × Except String Report :=
  match env.fetch (formatUrl url) with
  | .error msg => (preEvents, .error ("Analysis failed: " ++ msg))
  | .ok resp =>
    (preEvents ++ successEvents,
     .ok (buildReport resp (formatUrl url) (domainAgeOf env (formatUrl url))))

/-- The `/api/analyze` handler's SSE stream (lines 41–57): an initial
progress event, the pipeline's own progress events, then exactly one
terminal `complete` or `error` event. -/
def serverHandler (env : Env) (url : String) : List Ev :=
  .progress 0 0 :: (analyzeWebsite env url).1 ++
    (match (analyzeWebsite env url).2 with
     | .ok result => [.complete result]
     | .error message => [.error message])

/-- The route including the missing-URL guard (line 32): no SSE stream at
all when the query parameter is falsy. -/
def apiAnalyze (env : Env) (url : String) : Except String (List Ev) :=
  if url = "" then .error "URL is required" else .ok (serverHandler env url)

def isCompleteEv : Ev → Bool
  | .complete _ => true
  | _ => false

def isErrorEv : Ev → Bool
  | .error _ => true
  | _ => false

def countCompletes (evs : List Ev) : ℕ := (evs.filter isCompleteEv).length

def countErrors (evs : List Ev) : ℕ := (evs.filter isErrorEv).length

/-! ## Range lemmas for the nine scorers -/

theorem seoScore_range (t : String) (m : Option String) (h1 h2 h3 il el : ℕ) :
    0 ≤ calculateSEOScore t m h1 h2 h3 il el ∧ calculateSEOScore t m h1 h2 h3 il el ≤ 100 := by
  unfold calculateSEOScore
  split_ifs <;> decide

theorem requiredPagesScore_range (p c a t : Bool) :
    0 ≤ calculateRequiredPagesScore p c a t ∧ calculateRequiredPagesScore p c a t ≤ 100 := by
  unfold calculateRequiredPagesScore
  split_ifs <;> decide

theorem securityScore_range (h hs x c : Bool) :
    0 ≤ calculateSecurityScore h hs x c ∧ calculateSecurityScore h hs x c ≤ 100 := by
  unfold calculateSecurityScore
  split_ifs <;> decide

theorem domainAgeScore_range (age : JSVal) :
    0 ≤ calculateDomainAgeScore age ∧ calculateDomainAgeScore age ≤ 100 := by
  unfold calculateDomainAgeScore
  split_ifs <;> decide

theorem contentScore_range (w : ℕ) (avg : JSVal) :
    0 ≤ calculateContentScore w avg ∧ calculateContentScore w avg ≤ 100 := by
  unfold calculateContentScore
  split_ifs <;> decide

theorem imageScore_range (t a ti : ℕ) :
    0 ≤ calculateImageScore t a ti ∧ calculateImageScore t a ti ≤ 100 := by
  unfold calculateImageScore
  split_ifs <;> decide

theorem metaScore_range (v r k a s : Bool) :
    0 ≤ calculateMetaScore v r k a s ∧ calculateMetaScore v r k a s ≤ 100 := by
  unfold calculateMetaScore
  split_ifs <;> decide

theorem performanceScore_range (p : Perf) :
    0 ≤ calculatePerformanceScore p ∧ calculatePerformanceScore p ≤ 100 := by
  unfold calculatePerformanceScore
  split_ifs <;> decide

theorem accessibilityScore_range (a : Acc) :
    0 ≤ calculateAccessibilityScore a ∧ calculateAccessibilityScore a ≤ 100 := by
  unfold calculateAccessibilityScore
  split_ifs <;> decide

/-- Every component of a `scoresOf` record is in `[0, 100]`. -/
theorem scoresOf_range (resp : FetchResp) (fUrl : String) (age : JSVal) :
    (0 ≤ (scoresOf resp fUrl age).seo ∧ (scoresOf resp fUrl age).seo ≤ 100) ∧
    (0 ≤ (scoresOf resp fUrl age).requiredPages ∧ (scoresOf resp fUrl age).requiredPages ≤ 100) ∧
    (0 ≤ (scoresOf resp fUrl age).security ∧ (scoresOf resp fUrl age).security ≤ 100) ∧
    (0 ≤ (scoresOf resp fUrl age).domainAge ∧ (scoresOf resp fUrl age).domainAge ≤ 100) ∧
    (0 ≤ (scoresOf resp fUrl age).content ∧ (scoresOf resp fUrl age).content ≤ 100) ∧
    (0 ≤ (scoresOf resp fUrl age).images ∧ (scoresOf resp fUrl age).images ≤ 100) ∧
    (0 ≤ (scoresOf resp fUrl age).meta ∧ (scoresOf resp fUrl age).meta ≤ 100) ∧
    (0 ≤ (scoresOf resp fUrl age).performance ∧ (scoresOf resp fUrl age).performance ≤ 100) ∧
    (0 ≤ (scoresOf resp fUrl age).accessibility ∧ (scoresOf resp fUrl age).accessibility ≤ 100) :=
  ⟨seoScore_range _ _ _ _ _ _ _, requiredPagesScore_range _ _ _ _,
   securityScore_range _ _ _ _, domainAgeScore_range _,
   contentScore_range _ _, imageScore_range _ _ _, metaScore_range _ _ _ _ _,
   performanceScore_range _, accessibilityScore_range _⟩

/-- The weighted total lies in `[0, 120]` when every sub-score lies in
`[0, 100]` (the nine weights sum to 1.20). -/
theorem weightedTotal_range (s : Scores)
    (h : (0 ≤ s.seo ∧ s.seo ≤ 100) ∧ (0 ≤ s.requiredPages ∧ s.requiredPages ≤ 100) ∧
      (0 ≤ s.security ∧ s.security ≤ 100) ∧ (0 ≤ s.domainAge ∧ s.domainAge ≤ 100) ∧
      (0 ≤ s.content ∧ s.content ≤ 100) ∧ (0 ≤ s.images ∧ s.images ≤ 100) ∧
      (0 ≤ s.meta ∧ s.meta ≤ 100) ∧ (0 ≤ s.performance ∧ s.performance ≤ 100) ∧
      (0 ≤ s.accessibility ∧ s.accessibility ≤ 100)) :
    0 ≤ weightedTotal s ∧ weightedTotal s ≤ 120 := by
  obtain ⟨⟨a0, a1⟩, ⟨b0, b1⟩, ⟨c0, c1⟩, ⟨d0, d1⟩, ⟨e0, e1⟩, ⟨f0, f1⟩, ⟨g0, g1⟩, ⟨i0, i1⟩, ⟨j0, j1⟩⟩ := h
  have ca0 : (0 : ℚ) ≤ s.seo := by exact_mod_cast a0
  have ca1 : (s.seo : ℚ) ≤ 100 := by exact_mod_cast a1
  have cb0 : (0 : ℚ) ≤ s.requiredPages := by exact_mod_cast b0
  have cb1 : (s.requiredPages : ℚ) ≤ 100 := by exact_mod_cast b1
  have cc0 : (0 : ℚ) ≤ s.security := by exact_mod_cast c0
  have cc1 : (s.security : ℚ) ≤ 100 := by exact_mod_cast c1
  have cd0 : (0 : ℚ) ≤ s.domainAge := by exact_mod_cast d0
  have cd1 : (s.domainAge : ℚ) ≤ 100 := by exact_mod_cast d1
  have ce0 : (0 : ℚ) ≤ s.content := by exact_mod_cast e0
  have ce1 : (s.content : ℚ) ≤ 100 := by exact_mod_cast e1
  have cf0 : (0 : ℚ) ≤ s.images := by exact_mod_cast f0
  have cf1 : (s.images : ℚ) ≤ 100 := by exact_mod_cast f1
  have cg0 : (0 : ℚ) ≤ s.meta := by exact_mod_cast g0
  have cg1 : (s.meta : ℚ) ≤ 100 := by exact_mod_cast g1
  have ci0 : (0 : ℚ) ≤ s.performance := by exact_mod_cast i0
  have ci1 : (s.performance : ℚ) ≤ 100 := by exact_mod_cast i1
  have cj0 : (0 : ℚ) ≤ s.accessibility := by exact_mod_cast j0
  have cj1 : (s.accessibility : ℚ) ≤ 100 := by exact_mod_cast j1
  constructor <;> · simp only [weightedTotal]; nlinarith

/-- `Math.round` keeps a rational in `[0, 120]` inside `[0, 120]`. -/
theorem jsRoundQ_range (q : ℚ) (h0 : 0 ≤ q) (h1 : q ≤ 120) :
    0 ≤ jsRoundQ q ∧ jsRoundQ q ≤ 120 := by
  unfold jsRoundQ
  constructor
  · have : (0 : ℚ) ≤ q + 1/2 := by linarith
    exact Int.le_floor.mpr (by exact_mod_cast this)
  · have hlt : q + 1/2 < (121 : ℚ) := by linarith
    have := Int.floor_lt.mpr (by exact_mod_cast hlt : q + 1/2 < ((121 : ℤ) : ℚ))
    omega

/-- `calculateContentScore` is the sum of its two tiers. -/
theorem contentScore_eq_tiers (w : ℕ) (avg : JSVal) :
    calculateContentScore w avg = wordCountTier w + avgParagraphTier avg := by
  unfold calculateContentScore wordCountTier avgParagraphTier
  split_ifs <;> decide

/-- The overall score of a built report is the rounded weighted total. -/
theorem buildReport_score (resp : FetchResp) (fUrl : String) (age : JSVal) :
    (buildReport resp fUrl age).score = finalScoreOf (scoresOf resp fUrl age) := rfl

/-! ## Concrete fixtures -/

/-- A page maximizing every criterion except content: no paragraph at all
(which exercises the unguarded average-paragraph-length division). -/
def pageMax : Page :=
  { title := "T", metaDescription := some "D", h1Count := 1, h2Count := 1, h3Count := 1
    imgs := [{ alt := some "a", title := some "t" }]
    links := [{ href := some "/privacy", text := "p" }, { href := some "/contact", text := "c" },
              { href := some "/about", text := "a" }, { href := some "/terms", text := "t" },
              { href := some "http://other.example/x", text := "x" }]
    paragraphTexts := []
    hasViewport := true, hasRobots := true, hasKeywords := true, hasAuthor := true
    hasSocialMeta := true, scriptCount := 0, stylesheetCount := 0, formsHaveLabel := [true] }

def respMax : FetchResp :=
  { page := pageMax, hstsHeader := true, xssHeader := true, cspHeader := true }

/-- Fetch succeeds with `pageMax` over https; the domain is over a year old. -/
def envMax : Env :=
  { fetch := fun _ => .ok respMax
    whois := fun _ => .ok { creationDate := some 0 }
    now := 100000000000 }

/-- Fetch fails. -/
def envFail : Env :=
  { fetch := fun _ => .error "getaddrinfo ENOTFOUND", whois := fun _ => .error "no", now := 0 }

/-- Fetch succeeds, the whois lookup throws. -/
def envWhoisFail : Env :=
  { fetch := fun _ => .ok respMax, whois := fun _ => .error "lookup timeout", now := 0 }

/-- Fetch succeeds, the whois lookup succeeds but carries no parseable
creation date. -/
def envNaN : Env :=
  { fetch := fun _ => .ok respMax, whois := fun _ => .ok { creationDate := none }, now := 0 }

/-- Fetch succeeds and the whois data carries a creation date one 30-day
month before `now`. -/
def envMonth : Env :=
  { fetch := fun _ => .ok respMax, whois := fun _ => .ok { creationDate := some 0 }
    now := 2592000000 }

def pageEmpty : Page :=
  { title := "", metaDescription := none, h1Count := 0, h2Count := 0, h3Count := 0
    imgs := [], links := [], paragraphTexts := []
    hasViewport := false, hasRobots := false, hasKeywords := false, hasAuthor := false
    hasSocialMeta := false, scriptCount := 0, stylesheetCount := 0, formsHaveLabel := [] }

/-! ## Claim theorems -/

/-- C7: the SEO sub-score is the sum of exactly the seven documented
contributions (title +20, meta description +20, H1 +15, H2 +10, H3 +5,
internal links +15, external links +15), and on the spec's example page
(title "Shop", no meta description, 1 H1, 0 H2, 2 H3, 3 internal links,
2 external links) it equals 70. -/
theorem seo_score_sum_and_example :
    (∀ (t : String) (m : Option String) (h1 h2 h3 il el : ℕ),
      calculateSEOScore t m h1 h2 h3 il el =
        (if jsTruthyStr t then (20 : ℤ) else 0) + (if jsTruthyOpt m then 20 else 0) +
        (if h1 > 0 then 15 else 0) + (if h2 > 0 then 10 else 0) +
        (if h3 > 0 then 5 else 0) + (if il > 0 then 15 else 0) +
        (if el > 0 then 15 else 0)) ∧
    calculateSEOScore "Shop" none 1 0 2 3 2 = 70 := by
  constructor
  · intro t m h1 h2 h3 il el
    unfold calculateSEOScore
    split_ifs <;> decide
  · decide

/-- C8: each of the nine sub-score functions returns an integer in
`[0, 100]` on every possible input, including degenerate ones (the content
scorer even on the `Infinity`/`NaN` average the unguarded division can
produce, the domain-age scorer on any `JSVal`). -/
theorem nine_subscores_in_range :
    (∀ (t : String) (m : Option String) (h1 h2 h3 il el : ℕ),
      0 ≤ calculateSEOScore t m h1 h2 h3 il el ∧ calculateSEOScore t m h1 h2 h3 il el ≤ 100) ∧
    (∀ p c a t : Bool,
      0 ≤ calculateRequiredPagesScore p c a t ∧ calculateRequiredPagesScore p c a t ≤ 100) ∧
    (∀ h hs x c : Bool,
      0 ≤ calculateSecurityScore h hs x c ∧ calculateSecurityScore h hs x c ≤ 100) ∧
    (∀ age : JSVal,
      0 ≤ calculateDomainAgeScore age ∧ calculateDomainAgeScore age ≤ 100) ∧
    (∀ (w : ℕ) (avg : JSVal),
      0 ≤ calculateContentScore w avg ∧ calculateContentScore w avg ≤ 100) ∧
    (∀ t a ti : ℕ,
      0 ≤ calculateImageScore t a ti ∧ calculateImageScore t a ti ≤ 100) ∧
    (∀ v r k a s : Bool,
      0 ≤ calculateMetaScore v r k a s ∧ calculateMetaScore v r k a s ≤ 100) ∧
    (∀ p : Perf,
      0 ≤ calculatePerformanceScore p ∧ calculatePerformanceScore p ≤ 100) ∧
    (∀ a : Acc,
      0 ≤ calculateAccessibilityScore a ∧ calculateAccessibilityScore a ≤ 100) :=
  ⟨seoScore_range, requiredPagesScore_range, securityScore_range, domainAgeScore_range,
   contentScore_range, imageScore_range, metaScore_range, performanceScore_range,
   accessibilityScore_range⟩

/-- C10: a page with zero paragraph elements has extracted word count 1 (the
empty concatenated text splits into one empty token), so the word-count
contribution to the content sub-score is the lowest tier, +10. -/
theorem zero_paragraphs_word_count_one (page : Page)
    (h : page.paragraphTexts = []) :
    wordCountOf page = 1 ∧ wordCountOf page ≠ 0 ∧
    wordCountTier (wordCountOf page) = 10 ∧
    ∀ avg : JSVal, calculateContentScore (wordCountOf page) avg = 10 + avgParagraphTier avg := by
  have h1 : wordCountOf page = 1 := by
    unfold wordCountOf paragraphsText
    rw [h]
    decide
  have h10 : wordCountTier 1 = 10 := by decide
  refine ⟨h1, by omega, by rw [h1]; exact h10, fun avg => ?_⟩
  rw [h1, contentScore_eq_tiers, h10]

/-- Witness for C10 at a concrete paragraph-free page. -/
theorem zero_paragraphs_word_count_one_witness :
    wordCountOf pageEmpty = 1 ∧ wordCountOf pageEmpty ≠ 0 ∧
    wordCountTier (wordCountOf pageEmpty) = 10 ∧
    ∀ avg : JSVal, calculateContentScore (wordCountOf pageEmpty) avg = 10 + avgParagraphTier avg :=
  zero_paragraphs_word_count_one pageEmpty rfl

/-- C9: an `img` whose `alt` attribute is present but empty is counted as
lacking alt text: it contributes neither to the `withAlt` count of the image
sub-score (line 171) nor to the accessibility numerator (line 395, which is
the same filter); only a non-empty `alt` value counts, and likewise for the
`title` attribute. -/
theorem empty_alt_title_not_counted (imgs : List Img) (i : Img) :
    accImagesWithAlt imgs = imagesWithAlt imgs ∧
    (i.alt = some "" ∨ i.alt = none → imagesWithAlt (i :: imgs) = imagesWithAlt imgs) ∧
    (∀ s : String, i.alt = some s → s ≠ "" → imagesWithAlt (i :: imgs) = imagesWithAlt imgs + 1) ∧
    (i.title = some "" ∨ i.title = none → imagesWithTitle (i :: imgs) = imagesWithTitle imgs) ∧
    (∀ s : String, i.title = some s → s ≠ "" →
      imagesWithTitle (i :: imgs) = imagesWithTitle imgs + 1) := by
  refine ⟨rfl, ?_, ?_, ?_, ?_⟩
  · rintro (h | h) <;> simp [imagesWithAlt, List.filter_cons, jsTruthyOpt, h]
  · intro s hs hne
    simp [imagesWithAlt, List.filter_cons, jsTruthyOpt, hs, hne]
  · rintro (h | h) <;> simp [imagesWithTitle, List.filter_cons, jsTruthyOpt, h]
  · intro s hs hne
    simp [imagesWithTitle, List.filter_cons, jsTruthyOpt, hs, hne]

/-- C5 (amended): a link is internal iff its href attribute is present,
non-empty and starts with `/` or contains the formatted URL; the external
count is the total link count minus the internal count, so links with a
missing or empty href are counted as external, not excluded. -/
theorem link_classification (fUrl : String) (links : List Link) (l : Link) :
    (isInternalLink fUrl l = true ↔
      ∃ h : String, l.href = some h ∧ h ≠ "" ∧
        (jsStartsWith h "/" = true ∨ jsIncludes h fUrl = true)) ∧
    internalLinksCount fUrl links + externalLinksCount fUrl links = links.length ∧
    (l.href = none ∨ l.href = some "" → isInternalLink fUrl l = false) := by
  refine ⟨?_, ?_, ?_⟩
  · cases hh : l.href with
    | none => simp [isInternalLink, hh]
    | some h =>
      simp only [isInternalLink, hh, Bool.and_eq_true, Bool.or_eq_true, Bool.not_eq_true',
        beq_eq_false_iff_ne, Option.some.injEq]
      constructor
      · rintro ⟨hne, hor⟩
        exact ⟨h, rfl, hne, hor⟩
      · rintro ⟨h2, heq, hne, hor⟩
        exact ⟨heq ▸ hne, heq ▸ hor⟩
  · have hle : internalLinksCount fUrl links ≤ links.length :=
      List.length_filter_le _ _
    unfold externalLinksCount
    omega
  · rintro (h | h) <;> simp [isInternalLink, h]

/-- C5 counterexample: a single link with a missing href is classified
external (the external count is 1, not 0), contradicting the claim that
missing/empty-href links are excluded from the external count; an explicit
empty href behaves the same. -/
theorem empty_href_counted_external :
    externalLinksCount "http://example.com" [{ href := none, text := "x" }] = 1 ∧
    externalLinksCount "http://example.com" [{ href := some "", text := "x" }] = 1 ∧
    (1 : ℕ) ≠ 0 := by
  decide

/-- C6 (amended): the argument the pipeline passes to the whois lookup is
the full formatted URL (not its host), and when the lookup succeeds with a
parseable creation date the age is
`round((now - creationDate) / (1000*60*60*24*30))` months. -/
theorem whois_arg_and_age_formula (env : Env) (url : String) (w : WhoisData) (c : ℤ)
    (hw : env.whois (whoisArgOf url) = .ok w) (hc : w.creationDate = some c) :
    whoisArgOf url = formatUrl url ∧
    domainAgeOf env (whoisArgOf url) =
      .num (jsRoundQ ((env.now - c : ℚ) / (1000 * 60 * 60 * 24 * 30))) := by
  refine ⟨rfl, ?_⟩
  simp only [domainAgeOf, hw, hc]

/-- Witness for C6 at a lookup that dates the domain one 30-day month back. -/
theorem whois_arg_and_age_formula_witness :
    whoisArgOf "example.com" = formatUrl "example.com" ∧
    domainAgeOf envMonth (whoisArgOf "example.com") =
      .num (jsRoundQ ((envMonth.now - 0 : ℚ) / (1000 * 60 * 60 * 24 * 30))) :=
  whois_arg_and_age_formula envMonth "example.com" { creationDate := some 0 } 0 rfl rfl

/-- C6 counterexample: for the target `example.com` the argument passed to
the whois lookup is the whole formatted URL `http://example.com`, which is
not the target's host `example.com`. -/
theorem whois_arg_not_host :
    whoisArgOf "example.com" = "http://example.com" ∧
    urlHost (formatUrl "example.com") = "example.com" ∧
    whoisArgOf "example.com" ≠ urlHost (formatUrl "example.com") := by
  refine ⟨by decide, by decide, by decide⟩

/-- C3: when the page fetch fails, the SSE stream contains exactly one
error event — the terminal one, wrapping the underlying message — and zero
complete events. -/
theorem fetch_failure_single_error_event (env : Env) (url : String) (msg : String)
    (hf : env.fetch (formatUrl url) = .error msg) :
    (serverHandler env url).filter isErrorEv = [.error ("Analysis failed: " ++ msg)] ∧
    countCompletes (serverHandler env url) = 0 ∧
    (serverHandler env url).getLast? = some (.error ("Analysis failed: " ++ msg)) := by
  have hs : serverHandler env url =
      .progress 0 0 :: preEvents ++ [.error ("Analysis failed: " ++ msg)] := by
    simp only [serverHandler, analyzeWebsite, hf]
  rw [hs]
  exact ⟨rfl, rfl, rfl⟩

/-- Witness for C3 at a concrete failing fetch. -/
theorem fetch_failure_single_error_event_witness :
    (serverHandler envFail "example.com").filter isErrorEv =
      [.error ("Analysis failed: " ++ "getaddrinfo ENOTFOUND")] ∧
    countCompletes (serverHandler envFail "example.com") = 0 ∧
    (serverHandler envFail "example.com").getLast? =
      some (.error ("Analysis failed: " ++ "getaddrinfo ENOTFOUND")) :=
  fetch_failure_single_error_event envFail "example.com" "getaddrinfo ENOTFOUND" rfl

/-- C4 (amended): when the fetch succeeds the stream has zero error events
and exactly one terminal complete event, whatever the whois lookup does; a
lookup that throws is absorbed with domain age 0. (A lookup that succeeds
without a parseable creation date instead leaves the age `NaN`, see the
counterexample.) -/
theorem fetch_ok_completes_and_thrown_lookup_age_zero (env : Env) (url : String)
    (resp : FetchResp) (e : String)
    (hf : env.fetch (formatUrl url) = .ok resp) :
    countErrors (serverHandler env url) = 0 ∧
    (serverHandler env url).filter isCompleteEv =
      [.complete (buildReport resp (formatUrl url) (domainAgeOf env (formatUrl url)))] ∧
    (serverHandler env url).getLast? =
      some (.complete (buildReport resp (formatUrl url) (domainAgeOf env (formatUrl url)))) ∧
    (env.whois (formatUrl url) = .error e → domainAgeOf env (formatUrl url) = .num 0) := by
  have hs : serverHandler env url =
      .progress 0 0 :: (preEvents ++ successEvents) ++
        [.complete (buildReport resp (formatUrl url) (domainAgeOf env (formatUrl url)))] := by
    simp only [serverHandler, analyzeWebsite, hf]
  rw [hs]
  refine ⟨rfl, rfl, rfl, ?_⟩
  intro hw
  simp only [domainAgeOf, hw]

/-- Witness for C4 at a concrete throwing lookup. -/
theorem fetch_ok_completes_and_thrown_lookup_age_zero_witness :
    countErrors (serverHandler envWhoisFail "https://example.com") = 0 ∧
    (serverHandler envWhoisFail "https://example.com").filter isCompleteEv =
      [.complete (buildReport respMax (formatUrl "https://example.com")
        (domainAgeOf envWhoisFail (formatUrl "https://example.com")))] ∧
    (serverHandler envWhoisFail "https://example.com").getLast? =
      some (.complete (buildReport respMax (formatUrl "https://example.com")
        (domainAgeOf envWhoisFail (formatUrl "https://example.com")))) ∧
    (envWhoisFail.whois (formatUrl "https://example.com") = .error "lookup timeout" →
      domainAgeOf envWhoisFail (formatUrl "https://example.com") = .num 0) :=
  fetch_ok_completes_and_thrown_lookup_age_zero envWhoisFail "https://example.com"
    respMax "lookup timeout" rfl

/-- C4 counterexample: a whois lookup that succeeds but carries no parseable
creation date does not default the age to 0 — the subtraction against the
invalid date gives `NaN`, the report displays "NaN months" — although the
terminal event is still `complete` (no error event). -/
theorem missing_creation_date_age_nan :
    domainAgeOf envNaN (formatUrl "https://example.com") = .nan ∧
    JSVal.nan ≠ JSVal.num 0 ∧
    (analyzeWebsite envNaN "https://example.com").2.toOption.map
      (fun r => r.details.domain.age.value) = some "NaN months" ∧
    countErrors (serverHandler envNaN "https://example.com") = 0 := by
  refine ⟨by decide, by decide, by with_unfolding_all decide, by with_unfolding_all decide⟩

/-- C1 (amended): every analysis that reaches aggregation has overall score
`round(Σ subScore[c] × weight[c])` over the nine categories with the source's
weight table — but since those weights sum to 1.20, the score is an integer
in `[0, 120]`, not `[0, 100]`. -/
theorem finalScore_weighted_formula_and_range (env : Env) (url : String) (resp : FetchResp)
    (ps : List Ev) (r : Report)
    (hf : env.fetch (formatUrl url) = .ok resp)
    (ha : analyzeWebsite env url = (ps, .ok r)) :
    r.score =
      jsRoundQ (weightedTotal (scoresOf resp (formatUrl url) (domainAgeOf env (formatUrl url)))) ∧
    0 ≤ r.score ∧ r.score ≤ 120 := by
  have hr : r = buildReport resp (formatUrl url) (domainAgeOf env (formatUrl url)) := by
    simp only [analyzeWebsite, hf] at ha
    injection ha with hps hr2
    injection hr2 with hr3
    exact hr3.symm
  rw [hr, buildReport_score]
  have hw := weightedTotal_range _
    (scoresOf_range resp (formatUrl url) (domainAgeOf env (formatUrl url)))
  have hb := jsRoundQ_range _ hw.1 hw.2
  exact ⟨rfl, hb.1, hb.2⟩

/-- The report built for the maxed-out fixture. -/
def repMax : Report :=
  buildReport respMax (formatUrl "https://example.com")
    (domainAgeOf envMax (formatUrl "https://example.com"))

/-- Witness for C1 at the maxed-out fixture. -/
theorem finalScore_weighted_formula_and_range_witness :
    repMax.score =
      jsRoundQ (weightedTotal (scoresOf respMax (formatUrl "https://example.com")
        (domainAgeOf envMax (formatUrl "https://example.com")))) ∧
    0 ≤ repMax.score ∧ repMax.score ≤ 120 :=
  finalScore_weighted_formula_and_range envMax "https://example.com" respMax
    (preEvents ++ successEvents) repMax rfl rfl

/-- C1 counterexample: on a page maximizing eight categories (content is 60
because it has no paragraphs) the final score is 114, outside `[0, 100]`. -/
theorem finalScore_exceeds_100 :
    (analyzeWebsite envMax "https://example.com").2.toOption.map Report.score = some 114 ∧
    ¬(114 : ℤ) ≤ 100 := by
  refine ⟨by with_unfolding_all decide, by decide⟩

/-- C2, evaluated at the failing input: on a page with zero paragraph
elements the unguarded division makes the average paragraph length
`Infinity`, not 0 — both as the input to the content sub-score (which lands
in the top tier, total 60) and as the displayed `avgParagraphLength` value. -/
theorem zero_paragraphs_avg_is_infinity :
    avgParagraphLengthOf pageMax = .posInf ∧
    (analyzeWebsite envMax "https://example.com").2.toOption.map
      (fun r => r.details.content.avgParagraphLength.value) = some JSVal.posInf ∧
    JSVal.posInf ≠ JSVal.num 0 ∧
    calculateContentScore (wordCountOf pageMax) (avgParagraphLengthOf pageMax) = 60 := by
  refine ⟨by with_unfolding_all decide, by with_unfolding_all decide, by decide,
    by with_unfolding_all decide⟩

end AdSense
